import Mathlib

/-!
Shallow embedding of `src/main.py` (atlys_scraping): a paginated product
scraper with a retrying fetcher, a BeautifulSoup-based extractor, a JSON-file
storage, a Redis cache used for price-change detection, and a FastAPI
orchestrator `scrape_data`.

Modelling conventions:
* Python exceptions are the `PyError` inductive; fallible code returns
  `Except PyError _`.
* `httpx` attempt outcomes (per `client.get` + `raise_for_status`) are the
  `AttemptOutcome` inductive; a fetch is modelled against a function
  `Nat → AttemptOutcome` giving the outcome of each attempt index, and for
  the orchestrator `Nat → Nat → AttemptOutcome` (page index → attempt index).
* Python `float` values parsed from price text are modelled as `Rat`
  (exact values, exact equality, mirroring the source's `!=` comparison);
  the library call `float(s)` itself is kept abstract as a parameter
  `pf : String → Option Rat` (`none` models a raised `ValueError`).
* BeautifulSoup parsing (`BeautifulSoup(html) … soup.select('.product-card')`)
  is kept abstract as a parameter `pc : String → List Card`; a `Card` records,
  for one product card, the text of its `.product-title` node (`none` when
  `select_one` finds no node), the text of its `.product-price` node, and the
  `src` attribute of its `.product-image` node (`none` when the node or the
  attribute is missing).
* The Redis cache is a function `String → Option CacheEntry`; an entry keeps
  the stored product together with the expiry `setex` was called with.
  The JSON product file is `Option (List ProductRecord)` (`none` = no file),
  with `json.dump`/`json.load` assumed to round-trip.
-/

set_option autoImplicit false

deriving instance DecidableEq for Except

namespace AtlysScraping

/-- Python exceptions that the scraper code can raise or catch. -/
inductive PyError where
  /-- `AttributeError`: calling `.text` on the `None` returned by a failed
  `select_one`. -/
  | attributeError
  /-- `ValueError`: `float()` applied to a non-numeric string. -/
  | valueError
  /-- `TypeError`/`KeyError`: subscripting a missing `.product-image` node or a
  missing `src` attribute. -/
  | typeError
  /-- `httpx.HTTPStatusError`: raised by `response.raise_for_status()` on a
  non-success status code.  It is not a subclass of `httpx.RequestError`. -/
  | httpStatusError
  deriving DecidableEq, Repr

/-- Outcome of one `client.get(url)` + `raise_for_status()` attempt. -/
inductive AttemptOutcome where
  /-- The request succeeded with a 2xx status; `response.text` is `text`. -/
  | success (text : String)
  /-- The request raised `httpx.RequestError` (connection refused, timeout,
  DNS failure, transport error). -/
  | requestError
  /-- The request returned a non-success status, so `raise_for_status()`
  raised `httpx.HTTPStatusError`. -/
  | statusError
  deriving DecidableEq, Repr

/-- Result of `Scraper.fetch_page`, instrumented with the number of
`client.get` attempts issued and the list of `sleep` durations performed
(in seconds, in order). -/
structure FetchResult where
  result : Except PyError (Option String)
  attemptsMade : Nat
  waits : List Nat
  deriving DecidableEq, Repr

/-- The body of `fetch_page`'s `for attempt in range(3)` loop, with `i` the
current attempt index and `fuel` the number of loop iterations left
(`fuel = 3 - i`).  A `success` returns `response.text`; a `requestError` is
caught by `except httpx.RequestError`, sleeps `2 ** attempt`, and continues;
a `statusError` raises `httpx.HTTPStatusError`, which the `except` clause
does not catch, so it propagates.  Falling off the loop returns `None`. -/
def fetchGo (att : Nat → AttemptOutcome) : Nat → Nat → FetchResult
  | i, 0 => { result := .ok none, attemptsMade := i, waits := [] }
  | i, fuel + 1 =>
    match att i with
    | .success t => { result := .ok (some t), attemptsMade := i + 1, waits := [] }
    | .statusError => { result := .error .httpStatusError, attemptsMade := i + 1, waits := [] }
    | .requestError =>
      let r := fetchGo att (i + 1) fuel
      { result := r.result, attemptsMade := r.attemptsMade, waits := 2 ^ i :: r.waits }

/-- `Scraper.fetch_page` (src/main.py lines 30-40): up to 3 attempts. -/
def fetch_page (att : Nat → AttemptOutcome) : FetchResult :=
  fetchGo att 0 3

/-- One product card, as seen by the extraction loop: the text content of the
`.product-title` and `.product-price` nodes and the `src` attribute of the
`.product-image` node, each `none` when the node (or attribute) is absent. -/
structure Card where
  titleText : Option String
  priceText : Option String
  imageSrc : Option String
  deriving DecidableEq, Repr

/-- The product dictionary built at src/main.py line 54. -/
structure ProductRecord where
  product_title : String
  product_price : Rat
  image_url : String
  deriving DecidableEq, Repr

/-- Python `str.strip()`: remove leading and trailing whitespace. -/
def pyStrip (s : String) : String :=
  String.mk (((s.data.dropWhile Char.isWhitespace).reverse.dropWhile Char.isWhitespace).reverse)

/-- Python `str.replace('$', '')`: remove every dollar sign (a single-character
pattern, hence equivalent to filtering the character out). -/
def stripDollar (s : String) : String :=
  String.mk (s.data.filter (fun c => c ≠ '$'))

/-- The body of the `for product in soup.select('.product-card')` loop
(src/main.py lines 51-54) for one card.  Each failure mode raises:
a missing title node makes `.text` raise `AttributeError`; a missing price
node likewise; a price text that `float` cannot parse raises `ValueError`;
a missing image node or `src` attribute raises on subscripting. -/
def extractCard (pf : String → Option Rat) (c : Card) : Except PyError ProductRecord :=
  match c.titleText with
  | none => .error .attributeError
  | some t =>
    match c.priceText with
    | none => .error .attributeError
    | some pt =>
      match pf (stripDollar (pyStrip pt)) with
      | none => .error .valueError
      | some price =>
        match c.imageSrc with
        | none => .error .typeError
        | some src => .ok ⟨pyStrip t, price, src⟩

/-- The card loop of `scrape_products` over one page's cards, in document
order.  There is no `try`/`except` around the loop body, so the first raising
card aborts the whole loop (and the whole request). -/
def extractCards (pf : String → Option Rat) : List Card → Except PyError (List ProductRecord)
  | [] => .ok []
  | c :: cs =>
    match extractCard pf c with
    | .error e => .error e
    | .ok r =>
      match extractCards pf cs with
      | .error e => .error e
      | .ok rs => .ok (r :: rs)

/-- The page indices visited by `for page in range(1, self.page_limit + 1)`. -/
def pageIndices (page_limit : Nat) : List Nat :=
  (List.range page_limit).map (· + 1)

/-- The page loop of `Scraper.scrape_products` (src/main.py lines 42-55) over
a list of page indices.  `att p` gives the attempt outcomes for page `p`'s
URL; `pc` models `BeautifulSoup(html).select('.product-card')`.  An uncaught
exception from `fetch_page` or from extraction propagates; `if not html:
continue` skips a page whose fetch returned `None` or an empty string. -/
def scrapeGo (pf : String → Option Rat) (pc : String → List Card)
    (att : Nat → Nat → AttemptOutcome) : List Nat → Except PyError (List ProductRecord)
  | [] => .ok []
  | p :: ps =>
    match (fetch_page (att p)).result with
    | .error e => .error e
    | .ok none => scrapeGo pf pc att ps
    | .ok (some html) =>
      if html = "" then scrapeGo pf pc att ps
      else
        match extractCards pf (pc html) with
        | .error e => .error e
        | .ok rs =>
          match scrapeGo pf pc att ps with
          | .error e => .error e
          | .ok rest => .ok (rs ++ rest)

/-- `Scraper.scrape_products`: pages 1 .. page_limit in increasing order. -/
def scrape_products (pf : String → Option Rat) (pc : String → List Card)
    (att : Nat → Nat → AttemptOutcome) (page_limit : Nat) :
    Except PyError (List ProductRecord) :=
  scrapeGo pf pc att (pageIndices page_limit)

/-- `CACHE_EXPIRY = 3600` (src/main.py line 15). -/
def CACHE_EXPIRY : Nat := 3600

/-- One Redis entry written by `Cache.set`: the stored product and the expiry
(seconds) passed to `setex`. -/
structure CacheEntry where
  value : ProductRecord
  ttl : Nat
  deriving DecidableEq, Repr

/-- The cache keyspace: `none` models both a never-set and an expired key. -/
def CacheState : Type := String → Option CacheEntry

/-- `Cache.get`: returns the deserialized product, or `None` when absent. -/
def cacheGet (cache : CacheState) (key : String) : Option ProductRecord :=
  (cache key).map (·.value)

/-- `Cache.set`: `setex(key, CACHE_EXPIRY, json.dumps(value))` — overwrites
the key and refreshes its expiry. -/
def cacheSet (cache : CacheState) (key : String) (value : ProductRecord) : CacheState :=
  fun k => if k = key then some ⟨value, CACHE_EXPIRY⟩ else cache k

/-- The change condition at src/main.py line 107:
`not cached_product or cached_product['product_price'] != product['product_price']`. -/
def is_changed (cache : CacheState) (r : ProductRecord) : Bool :=
  match cacheGet cache r.product_title with
  | none => true
  | some cp => decide (cp.product_price ≠ r.product_price)

/-- Mutable state threaded through the orchestrator's record loop: the JSON
storage file contents and the Redis cache. -/
structure RunState where
  storage : List ProductRecord
  cache : CacheState

/-- The `for product in products` loop of `scrape_data` (src/main.py lines
105-110): for each record in order, if the change condition holds, append to
storage, write through to the cache with `CACHE_EXPIRY`, and increment
`new_count`; otherwise do nothing for that record. -/
def processRecords : List ProductRecord → RunState → Nat → RunState × Nat
  | [], st, n => (st, n)
  | r :: rs, st, n =>
    if is_changed st.cache r then
      processRecords rs ⟨st.storage ++ [r], cacheSet st.cache r.product_title r⟩ (n + 1)
    else
      processRecords rs st n

/-- The `/scrape` endpoint body `scrape_data` (src/main.py lines 96-113):
scrape all pages, then run the change-detection loop from the given initial
state; `.ok (st, n)` models the `{"status": "success", "updated_count": n}`
response with final storage/cache state `st`, `.error` models an exception
escaping the endpoint body. -/
def scrape_data (pf : String → Option Rat) (pc : String → List Card)
    (att : Nat → Nat → AttemptOutcome) (page_limit : Nat) (st : RunState) :
    Except PyError (RunState × Nat) :=
  match scrape_products pf pc att page_limit with
  | .error e => .error e
  | .ok products => .ok (processRecords products st 0)

/-- `Storage.load_data` (src/main.py lines 69-73): the file contents, or `[]`
when the file does not exist. -/
def load_data (file : Option (List ProductRecord)) : List ProductRecord :=
  file.getD []

/-- `Storage.save_product` (src/main.py lines 63-67): load, append, rewrite. -/
def save_product (file : Option (List ProductRecord)) (p : ProductRecord) :
    Option (List ProductRecord) :=
  some (load_data file ++ [p])

/-! ### Concrete fixtures used by witnesses and counterexamples -/

/-- A concrete stand-in for Python `float`: parses the two price strings the
demo pages use. -/
def pfDemo : String → Option Rat := fun s =>
  if s = "1" then some 1 else if s = "2" then some 2 else none

/-- A well-formed card titled `A` priced `$1`. -/
def cardA1 : Card := { titleText := some "A", priceText := some "$1", imageSrc := some "u" }

/-- A well-formed card titled `A` priced `$2` (same title, different price). -/
def cardA2 : Card := { titleText := some "A", priceText := some "$2", imageSrc := some "u" }

/-- A well-formed card titled `B` priced `$2`. -/
def cardB : Card := { titleText := some "B", priceText := some "$2", imageSrc := some "v" }

/-- A malformed card: no `.product-title` node. -/
def cardNoTitle : Card := { titleText := none, priceText := some "$1", imageSrc := some "u" }

/-- The record extracted from `cardA1`. -/
def recA1 : ProductRecord := ⟨"A", 1, "u"⟩

/-- The record extracted from `cardA2`. -/
def recA2 : ProductRecord := ⟨"A", 2, "u"⟩

/-- The record extracted from `cardB`. -/
def recB : ProductRecord := ⟨"B", 2, "v"⟩

/-- A parsed site with one page `"H"` holding the duplicate-title cards. -/
def pcDup : String → List Card := fun h => if h = "H" then [cardA1, cardA2] else []

/-- A parsed site with one page `"H"` holding two distinct well-formed cards. -/
def pcTwo : String → List Card := fun h => if h = "H" then [cardA1, cardB] else []

/-- A parsed site whose page `"H"` has a malformed card before a well-formed
one. -/
def pcBad : String → List Card := fun h => if h = "H" then [cardNoTitle, cardB] else []

/-- A parsed site with two pages: page body `"H"` and page body `"H2"`, the
second repeating the title of the first page's first card. -/
def pcPages : String → List Card := fun h =>
  if h = "H" then [cardA1, cardB] else if h = "H2" then [cardA1] else []

/-- Every attempt of every page succeeds with body `"H"`. -/
def attOk : Nat → Nat → AttemptOutcome := fun _ _ => .success "H"

/-- Every attempt of every page raises `httpx.RequestError`. -/
def attFail : Nat → Nat → AttemptOutcome := fun _ _ => .requestError

/-- Page 1 yields body `"H"`, page 2 yields body `"H2"`, first try. -/
def attPages : Nat → Nat → AttemptOutcome := fun p _ =>
  if p = 1 then .success "H" else .success "H2"

/-- Page 1 succeeds with an empty body; other pages succeed with `"H"`. -/
def attEmptyBody : Nat → Nat → AttemptOutcome := fun p _ =>
  if p = 1 then .success "" else .success "H"

/-- Empty storage file, empty cache. -/
def emptyState : RunState := ⟨[], fun _ => none⟩

/-- Every attempt returns a non-success status. -/
def attStatus : Nat → AttemptOutcome := fun _ => .statusError

/-- Transport error on attempt 0, then a non-success status on attempt 1. -/
def attReqThenStatus : Nat → AttemptOutcome := fun i =>
  if i = 0 then .requestError else .statusError

/-- Transport errors on attempts 0 and 1, success with body `"H"` on 2. -/
def attReqReqSuccess : Nat → AttemptOutcome := fun i =>
  if i < 2 then .requestError else .success "H"

/-- The page bodies of the two-page demo site. -/
def htmlDemo : Nat → String := fun p => if p = 1 then "H" else "H2"

/-- The records each demo page extracts to. -/
def recsDemo : Nat → List ProductRecord := fun p =>
  if p = 1 then [recA1, recB] else [recA1]

/-- No two records of the list share a title but disagree on price. -/
def samePricePerTitle (P : List ProductRecord) : Prop :=
  ∀ r ∈ P, ∀ s ∈ P, r.product_title = s.product_title →
    r.product_price = s.product_price

instance (P : List ProductRecord) : Decidable (samePricePerTitle P) := by
  unfold samePricePerTitle
  infer_instance

/-- The storage/cache state after the first demo run over `pcTwo`. -/
def demoState1 : RunState := (processRecords [recA1, recB] emptyState 0).1

/-- The `updated_count` of the second of two consecutive runs against the
unchanged duplicate-title source `pcDup` (errors propagated). -/
def c4secondCount : Except PyError Nat :=
  match scrape_data pfDemo pcDup attOk 1 emptyState with
  | .error e => .error e
  | .ok (st1, _) =>
    match scrape_data pfDemo pcDup attOk 1 st1 with
    | .error e => .error e
    | .ok (_, n2) => .ok n2

/-! ### Helper lemmas about the fetch loop -/

/-- When the first `k` attempts (from index `i`) all raise `httpx.RequestError`,
the fetch loop sleeps `2^i, …, 2^(i+k-1)` and then behaves as the loop resumed
at attempt `i + k` with `k` fewer iterations left. -/
theorem fetchGo_reqPrefix (att : Nat → AttemptOutcome) :
    ∀ (k i fuel : Nat), k ≤ fuel → (∀ j, j < k → att (i + j) = .requestError) →
    fetchGo att i fuel =
      { result := (fetchGo att (i + k) (fuel - k)).result,
        attemptsMade := (fetchGo att (i + k) (fuel - k)).attemptsMade,
        waits := (List.range k).map (fun j => 2 ^ (i + j)) ++ (fetchGo att (i + k) (fuel - k)).waits } := by
  intro k
  induction k with
  | zero =>
    intro i fuel _ _
    simp
  | succ k ih =>
    intro i fuel hk h
    cases fuel with
    | zero => exact absurd hk (by omega)
    | succ m =>
      have h0 : att i = .requestError := by simpa using h 0 (by omega)
      have hrec := ih (i + 1) m (by omega) (fun j hj => by
        have hj1 := h (j + 1) (by omega)
        have : i + (j + 1) = i + 1 + j := by omega
        rwa [this] at hj1)
      have harith1 : i + (k + 1) = i + 1 + k := by omega
      have harith2 : m + 1 - (k + 1) = m - k := by omega
      have hrange : (List.range (k + 1)).map (fun j => 2 ^ (i + j)) =
          2 ^ i :: (List.range k).map (fun j => 2 ^ (i + 1 + j)) := by
        have hfun : ((fun j => 2 ^ (i + j)) ∘ Nat.succ) = fun j => 2 ^ (i + 1 + j) := by
          funext j
          show 2 ^ (i + (j + 1)) = 2 ^ (i + 1 + j)
          congr 1
          omega
        simp only [List.range_succ_eq_map, List.map_cons, List.map_map, hfun, Nat.add_zero]
      simp only [fetchGo, h0]
      rw [hrec, harith1, harith2, hrange]
      simp

/-- Three `httpx.RequestError` attempts exhaust the loop: `fetch_page` returns
`None` after 3 attempts and sleeps 1, 2 and 4 seconds. -/
theorem fetch_page_allReqError (att : Nat → AttemptOutcome)
    (h : ∀ j, j < 3 → att j = .requestError) :
    fetch_page att = { result := .ok none, attemptsMade := 3, waits := [1, 2, 4] } := by
  have := fetchGo_reqPrefix att 3 0 3 (by omega) (fun j hj => by simpa using h j hj)
  rw [fetch_page, this]
  rfl

/-- A non-success status at attempt `k` (after `k` transport failures) makes
`fetch_page` raise `httpx.HTTPStatusError` at once: `k + 1` attempts in total
and no further backoff. -/
theorem fetch_page_statusAt (att : Nat → AttemptOutcome) (k : Nat) (hk : k < 3)
    (h : ∀ j, j < k → att j = .requestError) (hs : att k = .statusError) :
    fetch_page att = { result := .error .httpStatusError, attemptsMade := k + 1,
                       waits := (List.range k).map (2 ^ ·) } := by
  have hpre := fetchGo_reqPrefix att k 0 3 (by omega) (fun j hj => by simpa using h j hj)
  obtain ⟨m, hm⟩ : ∃ m, 3 - k = m + 1 := ⟨2 - k, by omega⟩
  rw [fetch_page, hpre, hm]
  simp [fetchGo, Nat.zero_add, hs]

/-- A success at attempt `k` (after `k` transport failures) returns the body:
`k + 1` attempts in total, sleeping `2^0, …, 2^(k-1)` between attempts. -/
theorem fetch_page_successAt (att : Nat → AttemptOutcome) (k : Nat) (t : String) (hk : k < 3)
    (h : ∀ j, j < k → att j = .requestError) (hs : att k = .success t) :
    fetch_page att = { result := .ok (some t), attemptsMade := k + 1,
                       waits := (List.range k).map (2 ^ ·) } := by
  have hpre := fetchGo_reqPrefix att k 0 3 (by omega) (fun j hj => by simpa using h j hj)
  obtain ⟨m, hm⟩ : ∃ m, 3 - k = m + 1 := ⟨2 - k, by omega⟩
  rw [fetch_page, hpre, hm]
  simp [fetchGo, Nat.zero_add, hs]

/-! ### Helper lemmas about the page loop -/

/-- A page whose fetch returned `None` is skipped. -/
theorem scrapeGo_skipNone (pf : String → Option Rat) (pc : String → List Card)
    (att : Nat → Nat → AttemptOutcome) (p : Nat) (ps : List Nat)
    (h : (fetch_page (att p)).result = .ok none) :
    scrapeGo pf pc att (p :: ps) = scrapeGo pf pc att ps := by
  simp [scrapeGo, h]

/-- A page whose fetch returned the empty string is skipped (`if not html`). -/
theorem scrapeGo_skipEmpty (pf : String → Option Rat) (pc : String → List Card)
    (att : Nat → Nat → AttemptOutcome) (p : Nat) (ps : List Nat)
    (h : (fetch_page (att p)).result = .ok (some "")) :
    scrapeGo pf pc att (p :: ps) = scrapeGo pf pc att ps := by
  simp [scrapeGo, h]

/-- When every page's fetch returns `None`, the page loop produces no record
and no error. -/
theorem scrapeGo_allNone (pf : String → Option Rat) (pc : String → List Card)
    (att : Nat → Nat → AttemptOutcome) :
    ∀ ps : List Nat, (∀ p ∈ ps, (fetch_page (att p)).result = .ok none) →
    scrapeGo pf pc att ps = .ok [] := by
  intro ps
  induction ps with
  | nil => intro _; rfl
  | cons p ps ih =>
    intro h
    rw [scrapeGo_skipNone pf pc att p ps (h p (by simp))]
    exact ih (fun q hq => h q (by simp [hq]))

/-- On a list of cards that all extract successfully, the card loop succeeds
and returns the records of the cards, pointwise and in the same order. -/
theorem extractCards_ok_pointwise (pf : String → Option Rat) :
    ∀ (cards : List Card) (out : List ProductRecord),
    extractCards pf cards = .ok out →
    out.length = cards.length ∧
    ∀ (i : Nat) (hi : i < cards.length) (ho : i < out.length),
      extractCard pf (cards.get ⟨i, hi⟩) = .ok (out.get ⟨i, ho⟩) := by
  intro cards
  induction cards with
  | nil =>
    intro out h
    simp only [extractCards] at h
    cases h
    exact ⟨rfl, fun i hi _ => absurd hi (by simp)⟩
  | cons c cs ih =>
    intro out h
    simp only [extractCards] at h
    cases hc : extractCard pf c with
    | error e => rw [hc] at h; cases h
    | ok r =>
      rw [hc] at h
      cases hcs : extractCards pf cs with
      | error e => rw [hcs] at h; cases h
      | ok rs =>
        rw [hcs] at h
        cases h
        obtain ⟨hlen, hpt⟩ := ih rs hcs
        refine ⟨by simp [hlen], ?_⟩
        intro i hi ho
        cases i with
        | zero => simpa using hc
        | succ i => simpa using hpt i (by simpa using hi) (by simpa using ho)

/-- When every page of the list fetches a non-empty body that extracts
successfully, the page loop returns the concatenation of the per-page record
lists, in page order. -/
theorem scrapeGo_pages_flatten (pf : String → Option Rat) (pc : String → List Card)
    (att : Nat → Nat → AttemptOutcome) (html : Nat → String)
    (recs : Nat → List ProductRecord) :
    ∀ ps : List Nat,
    (∀ p ∈ ps, (fetch_page (att p)).result = .ok (some (html p)) ∧ html p ≠ "" ∧
      extractCards pf (pc (html p)) = .ok (recs p)) →
    scrapeGo pf pc att ps = .ok ((ps.map recs).flatten) := by
  intro ps
  induction ps with
  | nil => intro _; rfl
  | cons p ps ih =>
    intro h
    obtain ⟨hf, hne, hx⟩ := h p (by simp)
    rw [scrapeGo, hf]
    simp only [if_neg hne]
    rw [hx, ih (fun q hq => h q (by simp [hq]))]
    simp

/-! ### Helper lemmas about change detection and the record loop -/

/-- The change condition holds exactly when the title is uncached or the
cached price differs. -/
theorem is_changed_true_iff (cache : CacheState) (r : ProductRecord) :
    is_changed cache r = true ↔
      cacheGet cache r.product_title = none ∨
      ∃ cp, cacheGet cache r.product_title = some cp ∧
        cp.product_price ≠ r.product_price := by
  unfold is_changed
  cases hc : cacheGet cache r.product_title with
  | none => simp
  | some cp => simp

/-- The change condition fails exactly when the title is cached with an equal
price. -/
theorem is_changed_false_iff (cache : CacheState) (r : ProductRecord) :
    is_changed cache r = false ↔
      ∃ cp, cacheGet cache r.product_title = some cp ∧
        cp.product_price = r.product_price := by
  unfold is_changed
  cases hc : cacheGet cache r.product_title with
  | none => simp
  | some cp => simp

/-- The record loop preserves "title `t` is cached at price `p`" whenever every
record of the remaining list that carries title `t` also carries price `p`. -/
theorem processRecords_cache_covered (t : String) (p : Rat) :
    ∀ (P : List ProductRecord) (st : RunState) (n : Nat),
    (∀ s ∈ P, s.product_title = t → s.product_price = p) →
    (∃ cp, cacheGet st.cache t = some cp ∧ cp.product_price = p) →
    ∃ cp, cacheGet (processRecords P st n).1.cache t = some cp ∧
      cp.product_price = p := by
  intro P
  induction P with
  | nil => intro st n _ hst; exact hst
  | cons r rs ih =>
    intro st n hP hst
    by_cases hch : is_changed st.cache r = true
    · rw [processRecords, if_pos hch]
      apply ih _ _ (fun s hs hst' => hP s (by simp [hs]) hst')
      by_cases hkey : t = r.product_title
      · refine ⟨r, ?_, ?_⟩
        · simp [cacheGet, cacheSet, hkey]
        · exact hP r (by simp) hkey.symm
      · obtain ⟨cp, hcp, hcpp⟩ := hst
        refine ⟨cp, ?_, hcpp⟩
        simpa [cacheGet, cacheSet, hkey] using hcp
    · rw [processRecords, if_neg hch]
      exact ih st n (fun s hs hst' => hP s (by simp [hs]) hst') hst

/-- After the record loop runs on a price-consistent list, every processed
record's title is cached at that record's price. -/
theorem processRecords_cache_after :
    ∀ (P : List ProductRecord) (st : RunState) (n : Nat),
    samePricePerTitle P →
    ∀ r ∈ P, ∃ cp, cacheGet (processRecords P st n).1.cache r.product_title = some cp ∧
      cp.product_price = r.product_price := by
  intro P
  induction P with
  | nil => intro st n _ r hr; exact absurd hr (by simp)
  | cons x xs ih =>
    intro st n H r hr
    have Hxs : samePricePerTitle xs :=
      fun a ha b hb hab => H a (by simp [ha]) b (by simp [hb]) hab
    rcases List.mem_cons.mp hr with hrx | hrxs
    · subst hrx
      by_cases hch : is_changed st.cache r = true
      · rw [processRecords, if_pos hch]
        apply processRecords_cache_covered r.product_title r.product_price xs _ _
          (fun s hs hst => H s (by simp [hs]) r (by simp) hst)
        exact ⟨r, by simp [cacheGet, cacheSet], rfl⟩
      · rw [processRecords, if_neg hch]
        apply processRecords_cache_covered r.product_title r.product_price xs _ _
          (fun s hs hst => H s (by simp [hs]) r (by simp) hst)
        exact is_changed_false_iff st.cache r |>.mp (by simpa using hch)
    · by_cases hch : is_changed st.cache x = true
      · rw [processRecords, if_pos hch]
        exact ih _ _ Hxs r hrxs
      · rw [processRecords, if_neg hch]
        exact ih _ _ Hxs r hrxs

/-- When every record of the list already has an equal-priced cache entry, the
record loop writes nothing and counts nothing. -/
theorem processRecords_noop :
    ∀ (P : List ProductRecord) (st : RunState) (n : Nat),
    (∀ r ∈ P, ∃ cp, cacheGet st.cache r.product_title = some cp ∧
      cp.product_price = r.product_price) →
    processRecords P st n = (st, n) := by
  intro P
  induction P with
  | nil => intro st n _; rfl
  | cons r rs ih =>
    intro st n h
    have hch : is_changed st.cache r = false :=
      (is_changed_false_iff st.cache r).mpr (h r (by simp))
    rw [processRecords, if_neg (by simp [hch])]
    exact ih st n (fun s hs => h s (by simp [hs]))

/-- The record loop appends exactly one record to storage per counted change,
and the counter never decreases. -/
theorem processRecords_storage_len :
    ∀ (P : List ProductRecord) (st : RunState) (n : Nat),
    (processRecords P st n).1.storage.length + n =
      st.storage.length + (processRecords P st n).2 ∧
    n ≤ (processRecords P st n).2 := by
  intro P
  induction P with
  | nil => intro st n; exact ⟨rfl, Nat.le_refl n⟩
  | cons r rs ih =>
    intro st n
    by_cases hch : is_changed st.cache r = true
    · rw [processRecords, if_pos hch]
      obtain ⟨h1, h2⟩ :=
        ih ⟨st.storage ++ [r], cacheSet st.cache r.product_title r⟩ (n + 1)
      simp only [List.length_append, List.length_cons, List.length_nil] at h1
      exact ⟨by omega, by omega⟩
    · rw [processRecords, if_neg hch]
      exact ih st n

/-! ### Claim theorems -/

/-- C1 counterexample: the claim says a card with a missing field is dropped
silently while later well-formed cards of the page are still emitted with no
error past extraction.  On the page `[cardNoTitle, cardB]` the code instead
raises `AttributeError` (`select_one` returned `None` and `.text` was taken),
emits nothing — not even the well-formed `cardB` — and the error propagates
out of `scrape_products`. -/
theorem c1_counterexample :
    extractCards pfDemo [cardNoTitle, cardB] = .error .attributeError ∧
    extractCards pfDemo [cardNoTitle, cardB] ≠ .ok [recB] ∧
    scrape_products pfDemo pcBad attOk 1 = .error .attributeError := by
  decide

/-- C1 (amended): if every card before `c` on the page extracts successfully
and any single field of `c` is missing or malformed (so extracting `c` raises
`e`), then the extraction step emits no record at all for the page — no
record for `c`, no partial record, and none of the cards after `c` — and the
exception `e` propagates past the extraction step. -/
theorem c1_malformed_card_aborts (pf : String → Option Rat)
    (pre : List Card) (c : Card) (post : List Card) (e : PyError)
    (hpre : ∀ d ∈ pre, (extractCard pf d).isOk = true)
    (hc : extractCard pf c = .error e) :
    extractCards pf (pre ++ c :: post) = .error e := by
  induction pre with
  | nil => simp [extractCards, hc]
  | cons d ds ih =>
    have hd := hpre d (by simp)
    cases hdc : extractCard pf d with
    | error e' => rw [hdc] at hd; cases hd
    | ok r =>
      have hih := ih (fun d' hd' => hpre d' (by simp [hd']))
      simp only [List.cons_append, extractCards, hdc, List.append_eq, hih]

/-- C1 witness: a malformed card in the middle of a page aborts the page even
though the card before it was fine. -/
theorem c1_malformed_card_aborts_witness :
    extractCards pfDemo ([cardB] ++ cardNoTitle :: [cardA1]) = .error .attributeError :=
  c1_malformed_card_aborts pfDemo [cardB] cardNoTitle [cardA1] .attributeError
    (by decide) (by decide)

/-- C2 counterexample: the claim says a non-success HTTP status is retried
like a transport failure (3 attempts, then `None`).  With every attempt
answering a non-success status, `fetch_page` instead raises
`httpx.HTTPStatusError` after a single attempt — `raise_for_status`'s
exception is not an `httpx.RequestError`, so the `except` clause does not
catch it — and the result is not the degraded `None`. -/
theorem c2_counterexample :
    fetch_page attStatus =
      { result := .error .httpStatusError, attemptsMade := 1, waits := [] } ∧
    (fetch_page attStatus).result ≠ .ok none := by
  decide

/-- C2 (amended): a non-success HTTP status on attempt `k` (after `k`
transport-error attempts) makes `fetch_page` raise `httpx.HTTPStatusError`
immediately: `k + 1` attempts in total, no further retry, no further backoff,
and the exception propagates past the fetcher instead of degrading to
`None`; only transport-level `httpx.RequestError` attempts are retried. -/
theorem c2_status_error_not_retried (att : Nat → AttemptOutcome) (k : Nat)
    (hk : k < 3) (hreq : ∀ j, j < k → att j = .requestError)
    (hs : att k = .statusError) :
    fetch_page att = { result := .error .httpStatusError, attemptsMade := k + 1,
                       waits := (List.range k).map (2 ^ ·) } :=
  fetch_page_statusAt att k hk hreq hs

/-- C2 witness: transport error then non-success status — the status error
surfaces on attempt 2 with only the one backoff sleep from the transport
error. -/
theorem c2_status_error_not_retried_witness :
    fetch_page attReqThenStatus =
      { result := .error .httpStatusError, attemptsMade := 2, waits := [1] } := by
  rw [c2_status_error_not_retried attReqThenStatus 1 (by omega)
    (fun j hj => by interval_cases j; rfl) (by rfl)]
  decide

/-- C3: a record is judged changed iff the cache lookup by its title is
absent, or the cached price is numerically unequal to the record's price
under exact equality; when the cached price is exactly equal it is judged
unchanged, and the record loop counts the record exactly when the condition
holds. -/
theorem c3_change_decision (cache : CacheState) (r : ProductRecord) :
    (is_changed cache r = true ↔
      cacheGet cache r.product_title = none ∨
      ∃ cp, cacheGet cache r.product_title = some cp ∧
        cp.product_price ≠ r.product_price) ∧
    (is_changed cache r = false ↔
      ∃ cp, cacheGet cache r.product_title = some cp ∧
        cp.product_price = r.product_price) ∧
    (∀ (st : RunState) (n : Nat),
      (processRecords [r] st n).2 = if is_changed st.cache r then n + 1 else n) := by
  refine ⟨is_changed_true_iff cache r, is_changed_false_iff cache r, ?_⟩
  intro st n
  by_cases h : is_changed st.cache r = true
  · rw [processRecords, if_pos h, if_pos h]; rfl
  · rw [processRecords, if_neg h, if_neg h]; rfl

/-- C4 counterexample: the claim says a second immediate run against an
unchanged source always yields `changed_count = 0`.  For the unchanged
source whose single page carries two cards with the same title `A` but
different prices (1 and 2), the first run leaves `A` cached at price 2, so
the second run re-judges both records changed: its `updated_count` is 2, not
0. -/
theorem c4_counterexample : c4secondCount = .ok 2 ∧ c4secondCount ≠ .ok 0 := by
  decide

/-- C4 (amended): a second immediate run against an unchanged source yields
`changed_count = 0` — and leaves storage and cache untouched — provided no
two records of the run share a title with different prices (in particular
whenever titles are distinct); with such a duplicate-title conflict the
rewritten cache entry alternates and the second run counts again. -/
theorem c4_second_run_zero (pf : String → Option Rat) (pc : String → List Card)
    (att : Nat → Nat → AttemptOutcome) (pl : Nat) (st0 st1 : RunState)
    (n1 : Nat) (P : List ProductRecord)
    (hP : scrape_products pf pc att pl = .ok P)
    (hprices : samePricePerTitle P)
    (h1 : scrape_data pf pc att pl st0 = .ok (st1, n1)) :
    scrape_data pf pc att pl st1 = .ok (st1, 0) := by
  have hdata : scrape_data pf pc att pl st0 = .ok (processRecords P st0 0) := by
    rw [scrape_data, hP]
  rw [hdata] at h1
  injection h1 with h1
  have hst1 : st1 = (processRecords P st0 0).1 := (congrArg Prod.fst h1).symm
  rw [scrape_data, hP]
  show Except.ok (processRecords P st1 0) = Except.ok (st1, 0)
  rw [processRecords_noop P st1 0 (fun r hr => by
    rw [hst1]
    exact processRecords_cache_after P st0 0 hprices r hr)]

/-- C4 witness: the distinct-title demo source is idempotent — re-running
from the state the first run produced counts nothing and changes nothing. -/
theorem c4_second_run_zero_witness :
    scrape_data pfDemo pcTwo attOk 1 demoState1 = .ok (demoState1, 0) :=
  c4_second_run_zero pfDemo pcTwo attOk 1 emptyState demoState1 2 [recA1, recB]
    (by decide) (by decide) rfl

/-- C5: exhausting the 3 attempts on transport errors makes `fetch_page`
return `None` rather than raise; the orchestrator skips such a page and
continues with the next ones; and a run in which every page fails this way
completes all iterations and returns `updated_count = 0` with an unchanged
state, not an error. -/
theorem c5_all_pages_failing_yields_zero :
    (∀ att : Nat → AttemptOutcome, (∀ j, j < 3 → att j = .requestError) →
      (fetch_page att).result = .ok none) ∧
    (∀ (pf : String → Option Rat) (pc : String → List Card)
      (att : Nat → Nat → AttemptOutcome) (p : Nat) (ps : List Nat),
      (fetch_page (att p)).result = .ok none →
      scrapeGo pf pc att (p :: ps) = scrapeGo pf pc att ps) ∧
    (∀ (pf : String → Option Rat) (pc : String → List Card)
      (att : Nat → Nat → AttemptOutcome) (pl : Nat) (st : RunState),
      (∀ p ∈ pageIndices pl, ∀ j, j < 3 → att p j = .requestError) →
      scrape_data pf pc att pl st = .ok (st, 0)) := by
  refine ⟨?_, ?_, ?_⟩
  · intro att h
    rw [fetch_page_allReqError att h]
  · exact scrapeGo_skipNone
  · intro pf pc att pl st h
    have hnone : scrapeGo pf pc att (pageIndices pl) = .ok [] :=
      scrapeGo_allNone pf pc att (pageIndices pl) (fun p hp => by
        rw [fetch_page_allReqError (att p) (h p hp)])
    rw [scrape_data, scrape_products, hnone]
    rfl

/-- C5 witness: a two-page run whose every attempt raises a transport error
returns success with `updated_count = 0` and the untouched initial state. -/
theorem c5_all_pages_failing_yields_zero_witness :
    scrape_data pfDemo pcDup attFail 2 emptyState = .ok (emptyState, 0) :=
  c5_all_pages_failing_yields_zero.2.2 pfDemo pcDup attFail 2 emptyState (by decide)

/-- C6: a fetch attempt `i` that fails with a transport error sleeps exactly
`2^i` time units before the next attempt — the first `k` all-failing attempts
produce the backoff schedule `2^0, …, 2^(k-1)` — and in particular when the
first two attempts fail transiently and the third succeeds, exactly 3
attempts are issued, the waits are 1 then 2, and the successful body is
returned. -/
theorem c6_backoff_schedule :
    (∀ (att : Nat → AttemptOutcome) (k : Nat), k ≤ 3 →
      (∀ j, j < k → att j = .requestError) →
      (fetch_page att).waits.take k = (List.range k).map (2 ^ ·)) ∧
    (∀ (att : Nat → AttemptOutcome) (t : String),
      att 0 = .requestError → att 1 = .requestError → att 2 = .success t →
      fetch_page att = { result := .ok (some t), attemptsMade := 3,
                         waits := [1, 2] }) := by
  constructor
  · intro att k hk h
    have hpre := fetchGo_reqPrefix att k 0 3 hk (fun j hj => by simpa using h j hj)
    rw [fetch_page, hpre]
    have hlen : ((List.range k).map (fun j => 2 ^ (0 + j))).length = k := by simp
    show ((List.range k).map (fun j => 2 ^ (0 + j)) ++
      (fetchGo att (0 + k) (3 - k)).waits).take k = (List.range k).map (2 ^ ·)
    rw [List.take_left' hlen]
    simp [Nat.zero_add]
  · intro att t h0 h1 h2
    have hw : (List.range 2).map (2 ^ ·) = [1, 2] := by decide
    rw [fetch_page_successAt att 2 t (by omega)
      (fun j hj => by interval_cases j <;> assumption) h2, hw]

/-- C6 witness: two transient failures then success — 3 attempts, waits 1
then 2, body returned; and the general schedule instantiated at `k = 2`. -/
theorem c6_backoff_schedule_witness :
    fetch_page attReqReqSuccess =
      { result := .ok (some "H"), attemptsMade := 3, waits := [1, 2] } ∧
    (fetch_page attReqReqSuccess).waits.take 2 = [1, 2] := by
  constructor
  · exact c6_backoff_schedule.2 attReqReqSuccess "H" rfl rfl rfl
  · rw [c6_backoff_schedule.1 attReqReqSuccess 2 (by omega)
      (fun j hj => by interval_cases j <;> rfl)]
    decide

/-- C7: per record, the change judgement itself writes nothing; a record
judged changed causes exactly one storage append (of that record), one cache
write at its title carrying `CACHE_EXPIRY`, touching no other key, and one
counter increment; a record judged unchanged leaves storage, cache and
counter untouched.  Globally, storage grows by exactly one record per counted
change. -/
theorem c7_per_record_effects (r : ProductRecord) (rs : List ProductRecord)
    (st : RunState) (n : Nat) :
    (processRecords (r :: rs) st n =
      if is_changed st.cache r then
        processRecords rs
          ⟨st.storage ++ [r], cacheSet st.cache r.product_title r⟩ (n + 1)
      else processRecords rs st n) ∧
    (∀ k, cacheSet st.cache r.product_title r k =
      if k = r.product_title then some ⟨r, CACHE_EXPIRY⟩ else st.cache k) ∧
    (∀ (P : List ProductRecord) (st' : RunState) (n' : Nat),
      (processRecords P st' n').1.storage.length + n' =
        st'.storage.length + (processRecords P st' n').2 ∧
      n' ≤ (processRecords P st' n').2) :=
  ⟨rfl, fun _ => rfl, processRecords_storage_len⟩

/-- C8: records appear in the output in the same order as their cards appear
in the document (pointwise: the i-th output record extracts from the i-th
card), pages are processed and concatenated in increasing page-index order
(1, 2, …, page_limit), and extraction performs no deduplication. -/
theorem c8_document_order (pf : String → Option Rat) (pc : String → List Card)
    (att : Nat → Nat → AttemptOutcome) :
    (∀ (cards : List Card) (out : List ProductRecord),
      extractCards pf cards = .ok out →
      out.length = cards.length ∧
      ∀ (i : Nat) (hi : i < cards.length) (ho : i < out.length),
        extractCard pf (cards.get ⟨i, hi⟩) = .ok (out.get ⟨i, ho⟩)) ∧
    (∀ (pl : Nat) (html : Nat → String) (recs : Nat → List ProductRecord),
      (∀ p ∈ pageIndices pl, (fetch_page (att p)).result = .ok (some (html p)) ∧
        html p ≠ "" ∧ extractCards pf (pc (html p)) = .ok (recs p)) →
      scrape_products pf pc att pl = .ok (((pageIndices pl).map recs).flatten)) ∧
    pageIndices = fun pl => (List.range pl).map (· + 1) :=
  ⟨extractCards_ok_pointwise pf,
   fun pl html recs h => scrapeGo_pages_flatten pf pc att html recs (pageIndices pl) h,
   rfl⟩

/-- C8 witness: a two-page demo — page 1 yields `A` then `B`, page 2 yields
`A` again — produces the records in page order with per-page document order,
and the duplicate title `A` from page 2 is emitted again, not deduplicated. -/
theorem c8_document_order_witness :
    scrape_products pfDemo pcPages attPages 2 = .ok [recA1, recB, recA1] := by
  have h := (c8_document_order pfDemo pcPages attPages).2.1 2 htmlDemo recsDemo
    (by decide)
  rw [h]
  decide

/-- C9: after `save_product p`, `load_data` returns exactly the prior
sequence with `p` appended as the last element; every previously stored
record keeps its content and position (the prior sequence is the unchanged
initial segment).  This holds for an empty prior file and for a missing file
alike. -/
theorem c9_save_product_appends (file : Option (List ProductRecord))
    (p : ProductRecord) :
    save_product file p = some (load_data file ++ [p]) ∧
    load_data (save_product file p) = load_data file ++ [p] ∧
    (load_data (save_product file p)).take (load_data file).length = load_data file ∧
    (load_data (save_product file p)).getLast? = some p := by
  refine ⟨rfl, rfl, ?_, ?_⟩
  · show (load_data file ++ [p]).take (load_data file).length = load_data file
    exact List.take_left _ _
  · show (load_data file ++ [p]).getLast? = some p
    exact List.getLast?_concat _

/-- C10: a fetch that succeeds with an empty-string body is treated by the
page loop identically to a failed fetch that degraded to `None`: in both
cases `if not html` skips the page, it contributes zero records, and no
error arises. -/
theorem c10_empty_body_like_failure (pf : String → Option Rat)
    (pc : String → List Card) (att : Nat → Nat → AttemptOutcome)
    (p : Nat) (ps : List Nat) :
    ((fetch_page (att p)).result = .ok (some "") →
      scrapeGo pf pc att (p :: ps) = scrapeGo pf pc att ps) ∧
    ((fetch_page (att p)).result = .ok none →
      scrapeGo pf pc att (p :: ps) = scrapeGo pf pc att ps) :=
  ⟨scrapeGo_skipEmpty pf pc att p ps, scrapeGo_skipNone pf pc att p ps⟩

/-- C10 witness: page 1 answers with an empty body; the run behaves exactly
as if page 1 were dropped from the page list. -/
theorem c10_empty_body_like_failure_witness :
    scrapeGo pfDemo pcTwo attEmptyBody (1 :: [2]) =
      scrapeGo pfDemo pcTwo attEmptyBody [2] :=
  (c10_empty_body_like_failure pfDemo pcTwo attEmptyBody 1 [2]).1 (by decide)

end AtlysScraping
